import Mathlib

/-!
Verification of `turn_off_leds.py` (tv-backlight repository).

The script builds one Adalight "all LEDs off" frame and writes it three
times over a serial connection.  We embed the packet construction
(`turn_off_leds.py` lines 31-42) as a pure function over `Int` (Python
integers are unbounded), the serial side effects as an explicit event
trace, and `main` (lines 61-71) as a function from an argument vector to
a process outcome.

Python integer semantics used by the embedding:
* Lean `Int` division `/` is Euclidean division; for a positive divisor
  it agrees with Python's floor division, hence with Python's arithmetic
  right shift `x >> 8 == x // 256`.  Lean's `Int` `>>>` is exactly this
  arithmetic shift, so `(led_count - 1) >> 8` is embedded verbatim.
* Python's mask `x & 0xFF` equals `x % 256` with a nonnegative remainder
  (floor mod) for every Python int, including negative ones; Lean `Int`
  `%` is that remainder, so the mask is embedded as `pyMask8`.
* `bytearray.append b` requires `0 <= b < 256` and raises `ValueError`
  otherwise; `appendByte` returns `none` in that case.
-/

/-- Python's `x & 0xFF` on an arbitrary (possibly negative) int: the
nonnegative remainder of `x` modulo `256`. -/
def pyMask8 (x : Int) : Int := x % 256

/-- Embedding of `bytearray.append b` (used at lines 37-39): the byte is
appended when `0 <= b < 256`, otherwise Python raises `ValueError`,
which we model as `none`.  A `none` input propagates (the exception has
already been raised). -/
def appendByte (packet : Option (List Nat)) (b : Int) : Option (List Nat) :=
  match packet with
  | none => none
  | some l => if 0 ≤ b ∧ b < 256 then some (l ++ [b.toNat]) else none

/-- Packet construction, `turn_off_leds.py` lines 31-42:
`hi = (led_count - 1) >> 8`, `lo = (led_count - 1) & 0xFF`,
`chk = (hi ^ lo ^ 0x55) & 0xFF`, then `bytearray(b'Ada')` with `hi`,
`lo`, `chk` appended and `[0, 0, 0] * led_count` extended onto it.

Python evaluates `chk` by xor on two's-complement ints; since xor
commutes with reduction modulo `2^8`, `(hi ^ lo ^ 0x55) & 0xFF` equals
the `Nat` xor of the 8-bit residues of `hi` and `lo` with `0x55`, masked
to 8 bits, which is how `chk` is written here.  `List.replicate`'s empty
result at a nonpositive count matches Python's `[0,0,0] * n == []` for
`n <= 0` (that branch is unreachable: `appendByte` has already failed
there).  The ASCII codes of `'A'`, `'d'`, `'a'` are 65, 100, 97. -/
def buildPacket (led_count : Int) : Option (List Nat) :=
  let hi : Int := (led_count - 1) >>> (8 : Nat)
  let lo : Int := pyMask8 (led_count - 1)
  let chk : Int := ((((pyMask8 hi).toNat ^^^ (pyMask8 lo).toNat ^^^ 85) &&& 255 : Nat) : Int)
  let header := appendByte (appendByte (appendByte (some [65, 100, 97]) hi) lo) chk
  header.map (fun l => l ++ List.replicate (3 * led_count.toNat) 0)

/-- Helper: the arithmetic shift is Euclidean division by 256. -/
theorem shift8_eq_div (m : Int) : m >>> (8 : Nat) = m / 256 := by
  have h := Int.shiftRight_eq_div_pow m 8
  norm_num at h
  exact h

/-- Helper: for `led_count` between 1 and 65536 the packet is built and
has the explicit shape `"Ada" ++ [hi, lo, chk] ++ zeros`. -/
theorem buildPacket_eq_of_range (n : Int) (h1 : 1 ≤ n) (h2 : n ≤ 65536) :
    buildPacket n =
      some ([65, 100, 97,
             ((n - 1) / 256).toNat,
             ((n - 1) % 256).toNat,
             (((n - 1) / 256).toNat ^^^ ((n - 1) % 256).toNat ^^^ 85) &&& 255]
            ++ List.replicate (3 * n.toNat) 0) := by
  have hm0 : (0 : Int) ≤ n - 1 := by omega
  have Hhi : (0 : Int) ≤ (n - 1) / 256 ∧ (n - 1) / 256 < 256 :=
    ⟨Int.ediv_nonneg hm0 (by norm_num),
     (Int.ediv_lt_iff_lt_mul (by norm_num)).mpr (by omega)⟩
  have Hlo : (0 : Int) ≤ (n - 1) % 256 ∧ (n - 1) % 256 < 256 :=
    ⟨Int.emod_nonneg _ (by norm_num), Int.emod_lt_of_pos _ (by norm_num)⟩
  have hchk_le : ((((n - 1) / 256).toNat ^^^ ((n - 1) % 256).toNat ^^^ 85) &&& 255) ≤ 255 :=
    Nat.and_le_right
  have Hchk : (0 : Int) ≤
        (((((n - 1) / 256).toNat ^^^ ((n - 1) % 256).toNat ^^^ 85) &&& 255 : Nat) : Int) ∧
      (((((n - 1) / 256).toNat ^^^ ((n - 1) % 256).toNat ^^^ 85) &&& 255 : Nat) : Int) < 256 :=
    ⟨by positivity, by exact_mod_cast Nat.lt_succ_of_le hchk_le⟩
  simp only [buildPacket, shift8_eq_div, pyMask8]
  rw [Int.emod_eq_of_lt Hhi.1 Hhi.2, Int.emod_eq_of_lt Hlo.1 Hlo.2]
  simp only [appendByte, if_pos Hhi, if_pos Hlo, if_pos Hchk, Option.map_some]
  simp

/-- C1: for every `ledCount` in `[1, 65536]` the frame is bit-exact per
the wire protocol: bytes 0-2 are the ASCII codes of `'A'`, `'d'`, `'a'`;
byte 3 is `hi = ((ledCount-1) >> 8) & 0xFF`; byte 4 is
`lo = (ledCount-1) & 0xFF`; byte 5 is `(hi xor lo xor 0x55) & 0xFF`; and
every byte from position 6 onward is `0x00`. -/
theorem buildPacket_bitexact (n : Int) (h1 : 1 ≤ n) (h2 : n ≤ 65536) :
    ∃ p, buildPacket n = some p ∧
      p.take 3 = [65, 100, 97] ∧
      p.getD 3 0 = (pyMask8 ((n - 1) >>> (8 : Nat))).toNat ∧
      p.getD 4 0 = (pyMask8 (n - 1)).toNat ∧
      p.getD 5 0 =
        ((pyMask8 ((n - 1) >>> (8 : Nat))).toNat ^^^ (pyMask8 (n - 1)).toNat ^^^ 85) &&& 255 ∧
      ∀ b ∈ p.drop 6, b = 0 := by
  have hm0 : (0 : Int) ≤ n - 1 := by omega
  have hhi0 : (0 : Int) ≤ (n - 1) / 256 := Int.ediv_nonneg hm0 (by norm_num)
  have hhi1 : (n - 1) / 256 < 256 :=
    (Int.ediv_lt_iff_lt_mul (by norm_num)).mpr (by omega)
  refine ⟨_, buildPacket_eq_of_range n h1 h2, ?_, ?_, ?_, ?_, ?_⟩
  · rfl
  · simp [shift8_eq_div, pyMask8, Int.emod_eq_of_lt hhi0 hhi1, List.getD]
  · simp [pyMask8, Int.emod_emod_of_dvd, List.getD]
  · simp [shift8_eq_div, pyMask8, Int.emod_eq_of_lt hhi0 hhi1, List.getD]
  · intro b hb
    simp only [List.cons_append, List.nil_append, List.drop_succ_cons,
      List.drop_zero] at hb
    exact List.eq_of_mem_replicate hb

/-- C1 witness: the `ledCount = 256` scenario: `hi = 0x00`,
`lo = 0xFF`, checksum `0xAA`, and 768 zero payload bytes. -/
theorem buildPacket_bitexact_witness :
    buildPacket 256 = some ([65, 100, 97, 0, 255, 170] ++ List.replicate 768 0) ∧
    (∃ p, buildPacket 256 = some p ∧
      p.take 3 = [65, 100, 97] ∧
      p.getD 3 0 = (pyMask8 ((256 - 1) >>> (8 : Nat))).toNat ∧
      p.getD 4 0 = (pyMask8 (256 - 1)).toNat ∧
      p.getD 5 0 =
        ((pyMask8 ((256 - 1) >>> (8 : Nat))).toNat ^^^ (pyMask8 (256 - 1)).toNat ^^^ 85) &&& 255 ∧
      ∀ b ∈ p.drop 6, b = 0) :=
  ⟨by rfl, buildPacket_bitexact 256 (by norm_num) (by norm_num)⟩

/-- Helper: when `hi = (led_count - 1) >> 8` falls outside `[0, 256)`,
`bytearray.append hi` raises and no packet is produced. -/
theorem buildPacket_none_of_hi_out (n : Int)
    (h : ¬ ((0 : Int) ≤ (n - 1) >>> (8 : Nat) ∧ (n - 1) >>> (8 : Nat) < 256)) :
    buildPacket n = none := by
  simp only [buildPacket, appendByte, if_neg h]
  rfl

/-- Helper: a nonpositive `led_count` makes `hi` negative, so the packet
construction fails. -/
theorem buildPacket_none_of_nonpos (n : Int) (h : n ≤ 0) : buildPacket n = none := by
  apply buildPacket_none_of_hi_out
  rw [shift8_eq_div]
  intro hc
  exact absurd hc.1 (by simpa using Int.ediv_neg' (a := n - 1) (by omega) (by norm_num))

/-- Helper: `led_count > 65536` makes `hi` at least 256, so the packet
construction fails. -/
theorem buildPacket_none_of_large (n : Int) (h : 65536 < n) : buildPacket n = none := by
  apply buildPacket_none_of_hi_out
  rw [shift8_eq_div]
  intro hc
  have hge : (256 : Int) ≤ (n - 1) / 256 :=
    (Int.le_ediv_iff_mul_le (by norm_num)).mpr (by omega)
  omega

/-- C2: every frame the send operation builds for `ledCount >= 1` has
length exactly `6 + 3 * ledCount` bytes. -/
theorem buildPacket_length (n : Int) (h1 : 1 ≤ n) (p : List Nat)
    (hp : buildPacket n = some p) : (p.length : Int) = 6 + 3 * n := by
  have h2 : n ≤ (65536 : Int) := by
    by_contra hgt
    push_neg at hgt
    rw [buildPacket_none_of_large n hgt] at hp
    exact Option.noConfusion hp
  rw [buildPacket_eq_of_range n h1 h2] at hp
  have hp' := Option.some.inj hp
  subst hp'
  have htn : ((n.toNat : Int)) = n := Int.toNat_of_nonneg (by omega)
  simp [List.length_append, List.length_replicate]
  omega

/-- C2 witness: at `ledCount = 2` the built frame has length
`6 + 3 * 2 = 12`. -/
theorem buildPacket_length_witness :
    buildPacket 2 = some [65, 100, 97, 0, 1, 84, 0, 0, 0, 0, 0, 0] ∧
    (([65, 100, 97, 0, 1, 84, 0, 0, 0, 0, 0, 0] : List Nat).length : Int) = 6 + 3 * 2 :=
  ⟨by rfl, buildPacket_length 2 (by norm_num) _ (by rfl)⟩

/-!
Effect-trace model of the serial session (`turn_off_leds`, lines 12-59)
and of `main` (lines 61-71).

Faults are modelled where the spec's failure scenarios place them: the
`serial.Serial(...)` constructor (device missing, permission denied),
and each `ser.write` / `ser.flush` call (cable disconnected mid-write).
Either `SerialException` or any other `Exception` is caught by the two
`except` clauses, which both return `False`; so the model only records
that the operation failed.  `time.sleep` and the buffer resets cannot
raise.  The stderr-style status prints of the `except` clauses carry the
exception's text and are not modelled; the success print and the usage
print are.  Delays are recorded in milliseconds (`0.1 s` and `0.05 s`
in the source).
-/

/-- One observable effect of the script.  `openPort` records the call
`serial.Serial(port=device, baudrate=baudrate, timeout=2, dsrdtr=False,
rtscts=False)` with its configuration arguments (an attempt; when the
environment makes it fail, it is the last event).  `read` is never
emitted: the script has no read path. -/
inductive Event where
  | openPort (device : String) (baudrate : Int) (timeout : Int) (dsrdtr rtscts : Bool)
  | sleep (ms : Nat)
  | resetInputBuffer
  | resetOutputBuffer
  | write (data : List Nat)
  | flush
  | read
  | close
  | print (msg : String)
deriving DecidableEq

/-- Fault environment: whether the port open succeeds, and whether the
i-th `write` and the i-th `flush` succeed. -/
structure SerialEnv where
  openOk : Bool
  writeOk : Nat → Bool
  flushOk : Nat → Bool

/-- Environment in which every serial operation succeeds. -/
def envAllOk : SerialEnv :=
  { openOk := true, writeOk := fun _ => true, flushOk := fun _ => true }

/-- Environment in which the port cannot be opened (e.g. a nonexistent
device path). -/
def envOpenFail : SerialEnv :=
  { openOk := false, writeOk := fun _ => true, flushOk := fun _ => true }

/-- Environment in which the port opens but every write raises
(e.g. cable disconnected after open). -/
def envWriteFail : SerialEnv :=
  { openOk := true, writeOk := fun _ => false, flushOk := fun _ => true }

/-- Success message printed at line 51. -/
def successMsg : String := "✓ LEDs turned off"

/-- Usage message printed at line 63. -/
def usageMsg : String := "Usage: turn_off_leds.py <device> <baudrate> <led_count>"

/-- The `for _ in range(3)` loop of lines 45-48: at iteration `i` it
writes the packet, flushes, sleeps 50 ms, and proceeds; a failing write
or flush raises, abandoning the loop (first component `false`).  A
failed operation has no observable effect on the connection, so it adds
no event. -/
def sendLoop (env : SerialEnv) (packet : List Nat) : Nat → Nat → Bool × List Event
  | _, 0 => (true, [])
  | i, n + 1 =>
    if env.writeOk i then
      if env.flushOk i then
        let r := sendLoop env packet (i + 1) n
        (r.1, Event.write packet :: Event.flush :: Event.sleep 50 :: r.2)
      else (false, [Event.write packet])
    else (false, [])

/-- The body of `turn_off_leds(device, baudrate, led_count)`
(lines 12-59), returning the Python result (`True`/`False`) and the
trace of effects.  Open attempt first; on success: 100 ms settle sleep,
both buffer resets, packet construction (whose `ValueError` for an
out-of-range byte is caught by the generic `except` clause), three
write/flush/sleep rounds, then `ser.close()` and, on the success path
only, the status print and `return True`.  No `except` clause closes the
port, so error paths after a successful open emit no `close`. -/
def turn_off_leds (env : SerialEnv) (device : String) (baudrate : Int)
    (led_count : Int) : Bool × List Event :=
  if env.openOk then
    match buildPacket led_count with
    | none =>
        (false, [Event.openPort device baudrate 2 false false, Event.sleep 100,
                 Event.resetInputBuffer, Event.resetOutputBuffer])
    | some packet =>
        let r := sendLoop env packet 0 3
        if r.1 then
          (true, [Event.openPort device baudrate 2 false false, Event.sleep 100,
                  Event.resetInputBuffer, Event.resetOutputBuffer]
                 ++ r.2 ++ [Event.close, Event.print successMsg])
        else
          (false, [Event.openPort device baudrate 2 false false, Event.sleep 100,
                   Event.resetInputBuffer, Event.resetOutputBuffer] ++ r.2)
  else (false, [Event.openPort device baudrate 2 false false])

/-- Digit-string value for `pyInt`; `none` when any character is not a
decimal digit or the string is empty. -/
def digitsVal (cs : List Char) : Option Nat :=
  match cs with
  | [] => none
  | _ =>
    if cs.all Char.isDigit then
      some (cs.foldl (fun a c => 10 * a + (c.toNat - 48)) 0)
    else none

/-- Embedding of Python's `int()` builtin applied to a command-line
string (lines 67-68): an optional sign followed by at least one decimal
digit; anything else raises `ValueError` (`none`).  Python additionally
strips surrounding whitespace and allows underscores between digits;
no claim depends on those inputs. -/
def pyInt (s : String) : Option Int :=
  match s.toList with
  | [] => none
  | c :: rest =>
    if c = '-' then (digitsVal rest).map (fun v => -(v : Int))
    else if c = '+' then (digitsVal rest).map (fun v => (v : Int))
    else (digitsVal (c :: rest)).map (fun v => (v : Int))

/-- Outcome of running the process: a `sys.exit` code, or an exception
escaping `main` uncaught (Python then terminates with a traceback). -/
inductive MainOutcome where
  | exited (code : Int)
  | uncaughtError
deriving DecidableEq

/-- The `main()` function (lines 61-71) on the full `sys.argv` vector
(element 0 is the script name).  Fewer than 4 elements: usage print and
`sys.exit(1)`.  Otherwise `int(sys.argv[2])` and then `int(sys.argv[3])`
are evaluated; a `ValueError` there is caught by nothing and escapes.
Otherwise `turn_off_leds` runs and its boolean becomes exit code 0 or
1. -/
def pymain (env : SerialEnv) (argv : List String) : MainOutcome × List Event :=
  if argv.length < 4 then (MainOutcome.exited 1, [Event.print usageMsg])
  else
    match pyInt (argv.getD 2 "") with
    | none => (MainOutcome.uncaughtError, [])
    | some baudrate =>
      match pyInt (argv.getD 3 "") with
      | none => (MainOutcome.uncaughtError, [])
      | some led_count =>
        let r := turn_off_leds env (argv.getD 1 "") baudrate led_count
        (MainOutcome.exited (if r.1 then 0 else 1), r.2)

/-- Helper: when the three-round send loop finishes with `True`, its
trace is exactly three write/flush/pause rounds of the same packet. -/
theorem sendLoop_three (env : SerialEnv) (p : List Nat) (i : Nat)
    (h : (sendLoop env p i 3).1 = true) :
    sendLoop env p i 3 =
      (true, [Event.write p, Event.flush, Event.sleep 50,
              Event.write p, Event.flush, Event.sleep 50,
              Event.write p, Event.flush, Event.sleep 50]) := by
  simp only [sendLoop] at h ⊢
  split_ifs at h ⊢ <;> simp_all

/-- C3: on every successful invocation the effect trace on the
connection is: open, the 100 ms settle delay, discard of the input and
output buffers, then exactly 3 writes of the identical frame, each write
immediately followed by a flush and a 50 ms pause, no read ever, then
close (and the status print). -/
theorem send_success_trace (env : SerialEnv) (device : String)
    (baudrate led_count : Int)
    (h : (turn_off_leds env device baudrate led_count).1 = true) :
    ∃ p, buildPacket led_count = some p ∧
      (turn_off_leds env device baudrate led_count).2 =
        [Event.openPort device baudrate 2 false false, Event.sleep 100,
         Event.resetInputBuffer, Event.resetOutputBuffer,
         Event.write p, Event.flush, Event.sleep 50,
         Event.write p, Event.flush, Event.sleep 50,
         Event.write p, Event.flush, Event.sleep 50,
         Event.close, Event.print successMsg] ∧
      Event.read ∉ (turn_off_leds env device baudrate led_count).2 := by
  cases henv : env.openOk with
  | false => simp [turn_off_leds, henv] at h
  | true =>
    cases hbp : buildPacket led_count with
    | none => simp [turn_off_leds, henv, hbp] at h
    | some p =>
      cases hr : (sendLoop env p 0 3).1 with
      | false => simp [turn_off_leds, henv, hbp, hr] at h
      | true =>
        have hsl := sendLoop_three env p 0 hr
        refine ⟨p, rfl, ?_, ?_⟩
        · simp [turn_off_leds, henv, hbp, hsl]
        · simp [turn_off_leds, henv, hbp, hsl]

/-- C3 witness: with every operation succeeding, one LED, the concrete
trace is produced. -/
theorem send_success_trace_witness :
    ∃ p, buildPacket 1 = some p ∧
      (turn_off_leds envAllOk "/dev/ttyUSB0" 115200 1).2 =
        [Event.openPort "/dev/ttyUSB0" 115200 2 false false, Event.sleep 100,
         Event.resetInputBuffer, Event.resetOutputBuffer,
         Event.write p, Event.flush, Event.sleep 50,
         Event.write p, Event.flush, Event.sleep 50,
         Event.write p, Event.flush, Event.sleep 50,
         Event.close, Event.print successMsg] ∧
      Event.read ∉ (turn_off_leds envAllOk "/dev/ttyUSB0" 115200 1).2 :=
  send_success_trace envAllOk "/dev/ttyUSB0" 115200 1 (by rfl)

/-- C4, evaluated at the failing input: the port opens, the first write
raises (cable disconnected), the `except` clause returns `False`, and
the trace contains the open but no `close` event.  The source has no
`finally` clause, so error paths after a successful open leak the
handle; this contradicts the spec's guaranteed release on every exit
path. -/
theorem close_skipped_after_write_fault :
    envWriteFail.openOk = true ∧
    (turn_off_leds envWriteFail "/dev/ttyUSB0" 115200 30).1 = false ∧
    Event.openPort "/dev/ttyUSB0" 115200 2 false false ∈
      (turn_off_leds envWriteFail "/dev/ttyUSB0" 115200 30).2 ∧
    Event.close ∉ (turn_off_leds envWriteFail "/dev/ttyUSB0" 115200 30).2 := by
  refine ⟨rfl, by rfl, ?_, ?_⟩ <;> decide

/-- C5 counterexample: a non-integer baudrate argument makes
`int(sys.argv[2])` raise a `ValueError` that nothing catches: the fault
escapes `main`, contradicting the claim that every argument list
resolves to an exit code. -/
theorem main_uncaught_on_nonint_arg :
    (pymain envAllOk ["turn_off_leds.py", "/dev/ttyUSB0", "abc", "30"]).1 =
      MainOutcome.uncaughtError := by
  rfl

/-- C5 amended: whenever the argument list is shorter than 4 entries, or
its baudrate and led-count entries are well-formed integer literals, the
process resolves to an exit code and no fault escapes. -/
theorem main_no_uncaught_when_args_wellformed (env : SerialEnv)
    (argv : List String)
    (h : argv.length < 4 ∨
      ((pyInt (argv.getD 2 "")).isSome ∧ (pyInt (argv.getD 3 "")).isSome)) :
    ∃ c, (pymain env argv).1 = MainOutcome.exited c := by
  rcases h with h | ⟨h2, h3⟩
  · exact ⟨1, by simp [pymain, h]⟩
  · rcases Option.isSome_iff_exists.mp h2 with ⟨b, hb⟩
    rcases Option.isSome_iff_exists.mp h3 with ⟨c, hc⟩
    by_cases hlen : argv.length < 4
    · exact ⟨1, by simp [pymain, hlen]⟩
    · refine ⟨if (turn_off_leds env (argv.getD 1 "") b c).1 then 0 else 1, ?_⟩
      simp only [pymain, if_neg hlen]
      rw [hb, hc]

/-- C5 amended witness: well-formed numeric arguments with an unopenable
device still resolve to an exit code. -/
theorem main_no_uncaught_when_args_wellformed_witness :
    ∃ c, (pymain envOpenFail
      ["turn_off_leds.py", "/dev/ttyUSB0", "115200", "30"]).1 =
        MainOutcome.exited c :=
  main_no_uncaught_when_args_wellformed envOpenFail
    ["turn_off_leds.py", "/dev/ttyUSB0", "115200", "30"]
    (Or.inr ⟨by rfl, by rfl⟩)

/-- C6: fewer than 3 positional arguments (fewer than 4 `sys.argv`
entries) exits with code 1, prints the usage message, and attempts no
serial port open. -/
theorem usage_on_missing_args (env : SerialEnv) (argv : List String)
    (h : argv.length < 4) :
    (pymain env argv).1 = MainOutcome.exited 1 ∧
    (pymain env argv).2 = [Event.print usageMsg] ∧
    ∀ d b t x y, Event.openPort d b t x y ∉ (pymain env argv).2 := by
  refine ⟨by simp [pymain, h], by simp [pymain, h], ?_⟩
  intro d b t x y
  simp [pymain, h]

/-- C6 witness: invoking with no positional arguments. -/
theorem usage_on_missing_args_witness :
    (pymain envAllOk ["turn_off_leds.py"]).1 = MainOutcome.exited 1 ∧
    (pymain envAllOk ["turn_off_leds.py"]).2 = [Event.print usageMsg] ∧
    ∀ d b t x y,
      Event.openPort d b t x y ∉ (pymain envAllOk ["turn_off_leds.py"]).2 :=
  usage_on_missing_args envAllOk ["turn_off_leds.py"] (by norm_num)

/-- C7: with parsable arguments, a failed port open makes
`turn_off_leds` return `False` and the process exit with code 1; and
whenever `turn_off_leds` returns `True` the process exits with code
0. -/
theorem exit_code_matches_send_result (env : SerialEnv) (argv : List String)
    (b c : Int) (hlen : 4 ≤ argv.length)
    (hb : pyInt (argv.getD 2 "") = some b)
    (hc : pyInt (argv.getD 3 "") = some c) :
    (env.openOk = false →
      (turn_off_leds env (argv.getD 1 "") b c).1 = false ∧
      (pymain env argv).1 = MainOutcome.exited 1) ∧
    ((turn_off_leds env (argv.getD 1 "") b c).1 = true →
      (pymain env argv).1 = MainOutcome.exited 0) := by
  have hlen' : ¬ argv.length < 4 := by omega
  constructor
  · intro hopen
    have hres : (turn_off_leds env (argv.getD 1 "") b c).1 = false := by
      simp [turn_off_leds, hopen]
    refine ⟨hres, ?_⟩
    simp only [pymain, if_neg hlen']
    rw [hb, hc]
    simpa using hres
  · intro htrue
    simp only [pymain, if_neg hlen']
    rw [hb, hc]
    simpa using htrue

/-- C7 witness: a nonexistent device path with numeric arguments. -/
theorem exit_code_matches_send_result_witness :
    (envOpenFail.openOk = false →
      (turn_off_leds envOpenFail
        (["turn_off_leds.py", "/dev/nonexistent", "115200", "30"].getD 1 "")
        115200 30).1 = false ∧
      (pymain envOpenFail
        ["turn_off_leds.py", "/dev/nonexistent", "115200", "30"]).1 =
          MainOutcome.exited 1) ∧
    ((turn_off_leds envOpenFail
        (["turn_off_leds.py", "/dev/nonexistent", "115200", "30"].getD 1 "")
        115200 30).1 = true →
      (pymain envOpenFail
        ["turn_off_leds.py", "/dev/nonexistent", "115200", "30"]).1 =
          MainOutcome.exited 0) :=
  exit_code_matches_send_result envOpenFail
    ["turn_off_leds.py", "/dev/nonexistent", "115200", "30"] 115200 30
    (by norm_num) (by rfl) (by rfl)

/-- C8: every invocation's first effect is the open attempt with the
caller's device and baud rate, 2-second timeout, and both reset lines
(`dsrdtr`, `rtscts`) held inactive. -/
theorem serial_open_params (env : SerialEnv) (device : String)
    (baudrate led_count : Int) :
    ((turn_off_leds env device baudrate led_count).2).head? =
      some (Event.openPort device baudrate 2 false false) := by
  cases henv : env.openOk with
  | false => simp [turn_off_leds, henv]
  | true =>
    cases hbp : buildPacket led_count with
    | none => simp [turn_off_leds, henv, hbp]
    | some p =>
      cases hr : (sendLoop env p 0 3).1 <;>
        simp [turn_off_leds, henv, hbp, hr]

/-- C9: a nonpositive `led_count` makes `hi = (led_count - 1) >> 8`
negative, `bytearray.append` raises before any write, the generic
`except` clause returns `False`, and no write event ever occurs. -/
theorem nonpositive_led_count_rejected (n : Int) (env : SerialEnv)
    (device : String) (baudrate : Int) (h : n ≤ 0) :
    (n - 1) >>> (8 : Nat) < 0 ∧
    buildPacket n = none ∧
    (turn_off_leds env device baudrate n).1 = false ∧
    ∀ p, Event.write p ∉ (turn_off_leds env device baudrate n).2 := by
  have hbp := buildPacket_none_of_nonpos n h
  refine ⟨by rw [shift8_eq_div]; exact Int.ediv_neg' (by omega) (by norm_num),
    hbp, ?_, ?_⟩
  · cases henv : env.openOk <;> simp [turn_off_leds, henv, hbp]
  · intro p
    cases henv : env.openOk <;> simp [turn_off_leds, henv, hbp]

/-- C9 witness: `led_count = 0` with every serial operation available:
result `False`, nothing written. -/
theorem nonpositive_led_count_rejected_witness :
    ((0 : Int) - 1) >>> (8 : Nat) < 0 ∧
    buildPacket 0 = none ∧
    (turn_off_leds envAllOk "/dev/ttyUSB0" 115200 0).1 = false ∧
    ∀ p, Event.write p ∉ (turn_off_leds envAllOk "/dev/ttyUSB0" 115200 0).2 :=
  nonpositive_led_count_rejected 0 envAllOk "/dev/ttyUSB0" 115200 (by norm_num)

/-- C10: `led_count > 65536` makes `hi = (led_count - 1) >> 8` at least
256 (the code applies no 8-bit mask to `hi`), `bytearray.append` raises
before any write, the `except` clause returns `False`, and no truncated
or masked frame is ever written. -/
theorem oversized_led_count_rejected (n : Int) (env : SerialEnv)
    (device : String) (baudrate : Int) (h : 65536 < n) :
    256 ≤ (n - 1) >>> (8 : Nat) ∧
    buildPacket n = none ∧
    (turn_off_leds env device baudrate n).1 = false ∧
    ∀ p, Event.write p ∉ (turn_off_leds env device baudrate n).2 := by
  have hbp := buildPacket_none_of_large n h
  refine ⟨by
      rw [shift8_eq_div]
      exact (Int.le_ediv_iff_mul_le (by norm_num)).mpr (by omega),
    hbp, ?_, ?_⟩
  · cases henv : env.openOk <;> simp [turn_off_leds, henv, hbp]
  · intro p
    cases henv : env.openOk <;> simp [turn_off_leds, henv, hbp]

/-- C10 witness: `led_count = 65537` with every serial operation
available: result `False`, nothing written. -/
theorem oversized_led_count_rejected_witness :
    256 ≤ ((65537 : Int) - 1) >>> (8 : Nat) ∧
    buildPacket 65537 = none ∧
    (turn_off_leds envAllOk "/dev/ttyUSB0" 115200 65537).1 = false ∧
    ∀ p,
      Event.write p ∉ (turn_off_leds envAllOk "/dev/ttyUSB0" 115200 65537).2 :=
  oversized_led_count_rejected 65537 envAllOk "/dev/ttyUSB0" 115200 (by norm_num)
